import Mathlib

/-!
# Verification of the SwasthiQ appointment backend

A shallow embedding of `backend/appointment_service.py` and
`backend/appointment_validators.py`.  Python strings become `String`,
Python ints become `Int`, the mutable `AppointmentService` object becomes
explicit state passing (each mutating operation returns its result paired
with the new state), and the `uuid` based id generation becomes a supplied
stream of hex suffixes together with the least index at which the candidate
id is unused (mirroring the retry-until-unique loop).

`datetime.strptime` for the formats `%Y-%m-%d` and `%H:%M` is modelled after
the regular expressions CPython compiles for those directives
(`%Y` = exactly four digits, `%m` = `1[0-2]|0[1-9]|[1-9]`,
`%d` = `3[01]|[12]\d|0[1-9]|[1-9]`, `%H` = `2[0-3]|[0-1]\d|\d`,
`%M` = `[0-5]\d|\d`, a full match being required), followed by the
`datetime` constructor's range check (year at least 1, day within the
month's length, Gregorian leap years).  Each alternation above is captured
numerically: a segment of one or two digits whose value lies in the
directive's range.  Digits are ASCII digits.
-/

set_option maxRecDepth 8000

namespace SwasthiQ

/-! ## Python string helpers -/

/-- ASCII whitespace stripped by Python's `str.strip()`. -/
def isPyWhitespace (c : Char) : Bool :=
  c = ' ' || c = '\t' || c = '\n' || c = '\r' || c = '\x0b' || c = '\x0c'

/-- Python `str.strip()` (restricted to ASCII whitespace). -/
def pyStrip (s : String) : String :=
  String.mk (((s.toList.dropWhile isPyWhitespace).reverse.dropWhile isPyWhitespace).reverse)

/-- Truthiness of an optional Python string (`None` and `""` are falsy). -/
def strTruthy : Option String → Bool
  | none => false
  | some s => !s.isEmpty

/-- Truthiness of an optional Python int (`None` and `0` are falsy). -/
def intTruthy : Option Int → Bool
  | none => false
  | some n => decide (n ≠ 0)

/-! ## Modelling `datetime.strptime` -/

/-- Numeric value of a list of ASCII digit characters. -/
def digitsToNat (cs : List Char) : Nat :=
  cs.foldl (fun a c => a * 10 + (c.toNat - '0'.toNat)) 0

/-- All characters are ASCII digits. -/
def allDigits (cs : List Char) : Bool :=
  cs.all (·.isDigit)

/-- Split a character list at every occurrence of `sep`
(the separators themselves are dropped); always returns at least one
(possibly empty) segment, like Python `str.split(sep)`. -/
def fields (sep : Char) : List Char → List (List Char)
  | [] => [[]]
  | c :: cs =>
    match fields sep cs with
    | [] => [[]]
    | f :: rest => if c = sep then [] :: f :: rest else (c :: f) :: rest

/-- Language of CPython's regex for `%Y`: exactly four digits. -/
def yearSeg (cs : List Char) : Bool :=
  allDigits cs && decide (cs.length = 4)

/-- Language of CPython's regex for `%m` (`1[0-2]|0[1-9]|[1-9]`):
one or two digits with value between 1 and 12. -/
def monthSeg (cs : List Char) : Bool :=
  allDigits cs && (decide (cs.length = 1) || decide (cs.length = 2)) &&
    decide (1 ≤ digitsToNat cs) && decide (digitsToNat cs ≤ 12)

/-- Language of CPython's regex for `%d` (`3[01]|[12]\d|0[1-9]|[1-9]`):
one or two digits with value between 1 and 31. -/
def daySeg (cs : List Char) : Bool :=
  allDigits cs && (decide (cs.length = 1) || decide (cs.length = 2)) &&
    decide (1 ≤ digitsToNat cs) && decide (digitsToNat cs ≤ 31)

/-- Language of CPython's regex for `%H` (`2[0-3]|[0-1]\d|\d`):
one or two digits with value at most 23. -/
def hourSeg (cs : List Char) : Bool :=
  allDigits cs && (decide (cs.length = 1) || decide (cs.length = 2)) &&
    decide (digitsToNat cs ≤ 23)

/-- Language of CPython's regex for `%M` (`[0-5]\d|\d`):
one or two digits with value at most 59. -/
def minuteSeg (cs : List Char) : Bool :=
  allDigits cs && (decide (cs.length = 1) || decide (cs.length = 2)) &&
    decide (digitsToNat cs ≤ 59)

/-- Gregorian leap year, as in Python's `calendar`/`datetime`. -/
def isLeapYear (y : Nat) : Bool :=
  (decide (y % 4 = 0) && decide (y % 100 ≠ 0)) || decide (y % 400 = 0)

/-- Number of days in a month, as used by the `datetime` constructor. -/
def daysInMonth (y m : Nat) : Nat :=
  if m = 2 then (if isLeapYear y then 29 else 28)
  else if m = 4 ∨ m = 6 ∨ m = 9 ∨ m = 11 then 30
  else 31

/-- Model of `datetime.strptime(s, "%Y-%m-%d")`: splits on the literal dashes, checks
each segment against its directive's regex language, then applies the
`datetime` constructor's validity check (year at least 1, real calendar day).
Returns the parsed `(year, month, day)` on success. -/
def parseDate (s : String) : Option (Nat × Nat × Nat) :=
  match fields '-' s.toList with
  | [ys, ms, ds] =>
    if yearSeg ys && monthSeg ms && daySeg ds then
      if 1 ≤ digitsToNat ys ∧
          digitsToNat ds ≤ daysInMonth (digitsToNat ys) (digitsToNat ms) then
        some (digitsToNat ys, digitsToNat ms, digitsToNat ds)
      else none
    else none
  | _ => none

/-- Model of `datetime.strptime(s, "%H:%M")`, returning minutes since midnight. -/
def parseTime (s : String) : Option Nat :=
  match fields ':' s.toList with
  | [hs, ms] =>
    if hourSeg hs && minuteSeg ms then
      some (digitsToNat hs * 60 + digitsToNat ms)
    else none
  | _ => none

/-! ## `appointment_validators.py` -/

/-- Model of `validate_date_format` from `appointment_validators.py`. -/
def validate_date_format (date_str : String) : Bool :=
  (parseDate date_str).isSome

/-- Model of `validate_time_format` from `appointment_validators.py`. -/
def validate_time_format (time_str : String) : Bool :=
  (parseTime time_str).isSome

/-- The closed status enumeration. -/
def valid_statuses : List String :=
  ["Confirmed", "Scheduled", "Upcoming", "Cancelled"]

/-- Model of `validate_status_value` from `appointment_validators.py`. -/
def validate_status_value (status : String) : Bool :=
  valid_statuses.contains status

/-- The closed mode enumeration. -/
def valid_modes : List String :=
  ["In-person", "Virtual", "Phone"]

/-- A creation payload: a Python dict whose keys may be absent (`none`).
Value types are fixed to the ones a valid payload carries; the `isinstance`
checks of the validator are therefore always satisfied. -/
structure Payload where
  patient_name : Option String := none
  date : Option String := none
  time : Option String := none
  duration : Option Int := none
  doctor_name : Option String := none
  mode : Option String := none
  status : Option String := none
deriving DecidableEq, Repr

/-- The required-field loop of `validate_appointment_data`: one
`Missing required field` message per absent or falsy required field,
in source order. -/
def requiredFieldErrors (data : Payload) : List String :=
  (if strTruthy data.patient_name then [] else ["Missing required field: patient_name"]) ++
  (if strTruthy data.date then [] else ["Missing required field: date"]) ++
  (if strTruthy data.time then [] else ["Missing required field: time"]) ++
  (if intTruthy data.duration then [] else ["Missing required field: duration"]) ++
  (if strTruthy data.doctor_name then [] else ["Missing required field: doctor_name"]) ++
  (if strTruthy data.mode then [] else ["Missing required field: mode"])

/-- The format-check stage of `validate_appointment_data`, reached only when
all required fields are present and truthy; collects all violations. -/
def formatErrors (data : Payload) : List String :=
  (if (pyStrip (data.patient_name.getD "")).length < 2 then
    ["Patient name must be at least 2 characters long"] else []) ++
  (if validate_date_format (data.date.getD "") then [] else
    ["Date must be in YYYY-MM-DD format"]) ++
  (if validate_time_format (data.time.getD "") then [] else
    ["Time must be in HH:MM format"]) ++
  (if data.duration.getD 0 ≤ 0 ∨ data.duration.getD 0 > 480 then
    ["Duration must be a positive integer between 1 and 480 minutes"] else []) ++
  (if (pyStrip (data.doctor_name.getD "")).length < 2 then
    ["Doctor name must be at least 2 characters long"] else []) ++
  (if valid_modes.contains (data.mode.getD "") then [] else
    ["Mode must be one of: In-person, Virtual, Phone"]) ++
  (if strTruthy data.status && !(valid_statuses.contains (data.status.getD "")) then
    ["Status must be one of: Confirmed, Scheduled, Upcoming, Cancelled"] else [])

/-- Model of `validate_appointment_data` from `appointment_validators.py`:
returns `(is_valid, errors)`; short-circuits on missing required fields. -/
def validate_appointment_data (data : Payload) : Bool × List String :=
  if requiredFieldErrors data ≠ [] then (false, requiredFieldErrors data)
  else ((formatErrors data).isEmpty, formatErrors data)

/-! ## `appointment_service.py`: data model -/

/-- The `Appointment` dataclass. -/
structure Appointment where
  id : String
  patient_name : String
  date : String
  time : String
  duration : Int
  doctor_name : String
  status : String
  mode : String
deriving DecidableEq, Repr

/-- The `AppointmentService` state: its single mutable field. -/
structure AppointmentService where
  appointments : List Appointment
deriving DecidableEq, Repr

/-- The result of `create_appointment` / `update_appointment_status`:
either the appointment, or an error envelope (code and message of
`_create_error_response`; the `details` dictionary is elided). -/
inductive ApiResult where
  | ok (appointment : Appointment)
  | err (code : String) (message : String)
deriving DecidableEq, Repr

/-- The fixed dataset installed by `_initialize_mock_data`. -/
def initial_mock_data : List Appointment :=
  [ ⟨"apt_001", "John Smith", "2024-12-27", "09:00", 30, "Dr. Sarah Johnson", "Confirmed", "In-person"⟩,
    ⟨"apt_002", "Emily Davis", "2024-12-27", "10:30", 45, "Dr. Michael Chen", "Scheduled", "Virtual"⟩,
    ⟨"apt_003", "Robert Wilson", "2024-12-28", "14:00", 60, "Dr. Sarah Johnson", "Upcoming", "In-person"⟩,
    ⟨"apt_004", "Lisa Anderson", "2024-12-26", "11:15", 30, "Dr. James Rodriguez", "Confirmed", "Phone"⟩,
    ⟨"apt_005", "David Brown", "2024-12-29", "08:30", 45, "Dr. Michael Chen", "Scheduled", "Virtual"⟩,
    ⟨"apt_006", "Jennifer Taylor", "2024-12-26", "15:45", 30, "Dr. Sarah Johnson", "Cancelled", "In-person"⟩,
    ⟨"apt_007", "Mark Thompson", "2024-12-30", "13:00", 60, "Dr. James Rodriguez", "Upcoming", "In-person"⟩,
    ⟨"apt_008", "Amanda White", "2024-12-27", "16:30", 30, "Dr. Michael Chen", "Confirmed", "Virtual"⟩,
    ⟨"apt_009", "Christopher Lee", "2024-12-25", "10:00", 45, "Dr. Sarah Johnson", "Confirmed", "Phone"⟩,
    ⟨"apt_010", "Michelle Garcia", "2024-12-28", "09:15", 30, "Dr. James Rodriguez", "Scheduled", "In-person"⟩,
    ⟨"apt_011", "Kevin Martinez", "2024-12-31", "11:00", 60, "Dr. Michael Chen", "Upcoming", "Virtual"⟩,
    ⟨"apt_012", "Rachel Clark", "2024-12-26", "14:30", 45, "Dr. Sarah Johnson", "Confirmed", "In-person"⟩ ]

/-- A freshly constructed `AppointmentService()`. -/
def initial_service : AppointmentService :=
  ⟨initial_mock_data⟩

/-! ## `appointment_service.py`: read operations -/

/-- Optional filter mapping for `get_appointments`
(keys among date, status, doctor_name; `none` = key absent). -/
structure Filters where
  date : Option String := none
  status : Option String := none
  doctor_name : Option String := none
deriving DecidableEq, Repr

/-- Model of `get_appointments`: successive filtering by date, status and doctor
name; a filter key that is absent or falsy (empty string) is skipped, and
`filters` itself being falsy returns a copy of the whole list. -/
def get_appointments (s : AppointmentService) (filters : Option Filters) : List Appointment :=
  match filters with
  | none => s.appointments
  | some f =>
    let l1 := if strTruthy f.date then
        s.appointments.filter (fun apt => apt.date == f.date.getD "")
      else s.appointments
    let l2 := if strTruthy f.status then
        l1.filter (fun apt => apt.status == f.status.getD "")
      else l1
    if strTruthy f.doctor_name then
      l2.filter (fun apt => apt.doctor_name == f.doctor_name.getD "")
    else l2

/-- Model of `get_appointment_by_id`: first appointment with the given id, if any. -/
def get_appointment_by_id (s : AppointmentService) (appointment_id : String) : Option Appointment :=
  s.appointments.find? (fun appointment => appointment.id == appointment_id)

/-! ## `appointment_service.py`: conflict detection -/

/-- The per-appointment keep-condition of `_check_time_conflicts`, given the
parsed start of the candidate interval (`newStart`, minutes) and its
duration: not the excluded id (exclusion only when `exclude_id` is truthy),
same doctor and date, not cancelled, existing time parsable, and the
half-open intervals overlap (`new_start < existing_end and
existing_start < new_end`). -/
def conflictKeep (doctor_name date : String) (newStart : Nat) (duration : Int)
    (exclude_id : Option String) (apt : Appointment) : Bool :=
  !(strTruthy exclude_id && apt.id == exclude_id.getD "") &&
  apt.doctor_name == doctor_name && apt.date == date &&
  apt.status != "Cancelled" &&
  match parseTime apt.time with
  | none => false
  | some existingStart =>
    decide ((existingStart : Int) < newStart + duration) &&
    decide ((newStart : Int) < existingStart + apt.duration)

/-- Model of `_check_time_conflicts`: if the candidate date or time does not parse the
conflict list is empty (the `ValueError` branch); otherwise every stored
appointment passing `conflictKeep` is collected in order.  An existing
appointment's date equals the candidate's date by the time it is parsed, so
only its time field can fail to parse. -/
def check_time_conflicts (s : AppointmentService) (doctor_name date time : String)
    (duration : Int) (exclude_id : Option String) : List Appointment :=
  match parseDate date, parseTime time with
  | some _, some newStart =>
    s.appointments.filter (conflictKeep doctor_name date newStart duration exclude_id)
  | _, _ => []

/-! ## `appointment_service.py`: create -/

/-- The candidate id produced by the n-th draw of
`f"apt_{uuid.uuid4().hex[:8]}"`, with the draws given by `supply`. -/
def candidate_id (supply : Nat → String) (n : Nat) : String :=
  "apt_" ++ supply n

/-- Holds when `get_appointment_by_id(new_id) is None`: the id is unused. -/
def id_is_free (s : AppointmentService) (new_id : String) : Bool :=
  (get_appointment_by_id s new_id).isNone

/-- Body of `create_appointment` once the generated id is fixed:
validation, status defaulting and re-validation, conflict check, append. -/
def create_with_id (s : AppointmentService) (new_id : String) (payload : Payload) :
    ApiResult × AppointmentService :=
  if (validate_appointment_data payload).1 = false then
    (.err "VALIDATION_ERROR" "Invalid appointment data", s)
  else
    let status := payload.status.getD "Scheduled"
    if validate_status_value status = false then
      (.err "VALIDATION_ERROR" ("Invalid status value: " ++ status), s)
    else
      let conflicts := check_time_conflicts s (pyStrip (payload.doctor_name.getD ""))
        (payload.date.getD "") (payload.time.getD "") (payload.duration.getD 0) none
      if conflicts.isEmpty then
        let new_appointment : Appointment :=
          ⟨new_id, pyStrip (payload.patient_name.getD ""), payload.date.getD "",
            payload.time.getD "", payload.duration.getD 0,
            pyStrip (payload.doctor_name.getD ""), status, payload.mode.getD ""⟩
        (.ok new_appointment, ⟨s.appointments ++ [new_appointment]⟩)
      else
        (.err "CONFLICT_ERROR"
          ("Time conflict detected for Dr. " ++ payload.doctor_name.getD "" ++
            " on " ++ payload.date.getD ""), s)

/-- Model of `create_appointment`: the retry loop keeps drawing candidate ids until
one is unused, i.e. it settles on the least index of `supply` whose
candidate is free (`hfresh` guarantees the loop terminates); the rest is
`create_with_id`.  Id generation is pure, so computing it outside the
validation steps preserves the source's behaviour. -/
def create_appointment (s : AppointmentService) (supply : Nat → String)
    (hfresh : ∃ n, id_is_free s (candidate_id supply n) = true) (payload : Payload) :
    ApiResult × AppointmentService :=
  create_with_id s (candidate_id supply (Nat.find hfresh)) payload

/-! ## `appointment_service.py`: update and delete -/

/-- A copy of `apt` with only the status replaced, as built field by field
in `update_appointment_status`. -/
def with_status (apt : Appointment) (new_status : String) : Appointment :=
  ⟨apt.id, apt.patient_name, apt.date, apt.time, apt.duration,
    apt.doctor_name, new_status, apt.mode⟩

/-- The `for i, apt in enumerate(...)` loop of `update_appointment_status`:
replace the first appointment with the given id, returning the updated
record and the updated list, or `none` when no id matches. -/
def update_status_loop (appointment_id new_status : String) :
    List Appointment → Option (Appointment × List Appointment)
  | [] => none
  | apt :: rest =>
    if apt.id == appointment_id then
      some (with_status apt new_status, with_status apt new_status :: rest)
    else
      match update_status_loop appointment_id new_status rest with
      | none => none
      | some (u, l) => some (u, apt :: l)

/-- Model of `update_appointment_status`: status validation, lookup, then the
replacement loop (whose not-found fallback is unreachable after the
lookup succeeded). -/
def update_appointment_status (s : AppointmentService)
    (appointment_id new_status : String) : ApiResult × AppointmentService :=
  if validate_status_value new_status = false then
    (.err "VALIDATION_ERROR" ("Invalid status value: " ++ new_status), s)
  else
    match get_appointment_by_id s appointment_id with
    | none =>
      (.err "NOT_FOUND" ("Appointment with ID " ++ appointment_id ++ " not found"), s)
    | some _ =>
      match update_status_loop appointment_id new_status s.appointments with
      | some (u, l) => (.ok u, ⟨l⟩)
      | none =>
        (.err "NOT_FOUND"
          ("Appointment with ID " ++ appointment_id ++ " not found during update"), s)

/-- Model of `delete_appointment`: lookup, then rebuild the list without any
appointment of that id, reporting whether exactly one was removed. -/
def delete_appointment (s : AppointmentService) (appointment_id : String) :
    Bool × AppointmentService :=
  match get_appointment_by_id s appointment_id with
  | none => (false, s)
  | some _ =>
    let remaining := s.appointments.filter (fun apt => !(apt.id == appointment_id))
    (decide (s.appointments.length - remaining.length = 1), ⟨remaining⟩)

/-! ## Transition system and the no-double-booking invariant -/

/-- Two stored appointments are double-booked: same doctor, same date, both
non-cancelled, both times parsable, and the `[start, start + duration)`
intervals overlap. -/
def doubleBooked (a b : Appointment) : Bool :=
  a.doctor_name == b.doctor_name && a.date == b.date &&
  a.status != "Cancelled" && b.status != "Cancelled" &&
  match parseTime a.time, parseTime b.time with
  | some sa, some sb =>
    decide ((sa : Int) < sb + b.duration) && decide ((sb : Int) < sa + a.duration)
  | _, _ => false

/-- The store invariant: no two stored appointments are double-booked. -/
def NoDoubleBooking (s : AppointmentService) : Prop :=
  s.appointments.Pairwise (fun a b => doubleBooked a b = false)

/-- One mutating API call. -/
inductive Step : AppointmentService → AppointmentService → Prop
  | create (s : AppointmentService) (supply : Nat → String) (payload : Payload)
      (hfresh : ∃ n, id_is_free s (candidate_id supply n) = true) :
      Step s (create_appointment s supply hfresh payload).2
  | update (s : AppointmentService) (appointment_id new_status : String) :
      Step s (update_appointment_status s appointment_id new_status).2
  | delete (s : AppointmentService) (appointment_id : String) :
      Step s (delete_appointment s appointment_id).2

/-- States reachable from the freshly initialised service. -/
def Reachable (s : AppointmentService) : Prop :=
  Relation.ReflTransGen Step initial_service s

/-- One mutating API call that never moves an appointment's status away
from `Cancelled`: as `Step`, except that a status update whose target is
currently cancelled must set the status to `Cancelled` again. -/
inductive SafeStep : AppointmentService → AppointmentService → Prop
  | create (s : AppointmentService) (supply : Nat → String) (payload : Payload)
      (hfresh : ∃ n, id_is_free s (candidate_id supply n) = true) :
      SafeStep s (create_appointment s supply hfresh payload).2
  | update (s : AppointmentService) (appointment_id new_status : String)
      (hsafe : ∀ apt, get_appointment_by_id s appointment_id = some apt →
        apt.status = "Cancelled" → new_status = "Cancelled") :
      SafeStep s (update_appointment_status s appointment_id new_status).2
  | delete (s : AppointmentService) (appointment_id : String) :
      SafeStep s (delete_appointment s appointment_id).2

/-- States reachable without ever un-cancelling an appointment. -/
def SafeReachable (s : AppointmentService) : Prop :=
  Relation.ReflTransGen SafeStep initial_service s

instance (s : AppointmentService) : Decidable (NoDoubleBooking s) :=
  inferInstanceAs (Decidable (s.appointments.Pairwise (fun a b => doubleBooked a b = false)))

/-! ## Auxiliary definitions for the theorems -/

/-- Inverse of `fields`: rejoin segments with the separator between them. -/
def joinSep (sep : Char) : List (List Char) → List Char
  | [] => []
  | [x] => x
  | x :: y :: xs => x ++ sep :: joinSep sep (y :: xs)

/-- The date format as the specification words it: exactly four year
digits, exactly two month digits, exactly two day digits, denoting a real
calendar date.  Stated from the spec's words, for comparison with the
code's `validate_date_format`. -/
def specStrictDateFormat (s : String) : Bool :=
  match fields '-' s.toList with
  | [ys, ms, ds] =>
    allDigits ys && decide (ys.length = 4) &&
    allDigits ms && decide (ms.length = 2) &&
    allDigits ds && decide (ds.length = 2) &&
    decide (1 ≤ digitsToNat ys) && decide (1 ≤ digitsToNat ms) &&
    decide (digitsToNat ms ≤ 12) && decide (1 ≤ digitsToNat ds) &&
    decide (digitsToNat ds ≤ daysInMonth (digitsToNat ys) (digitsToNat ms))
  | _ => false

/-! Concrete data for the un-cancelling trace: create an appointment for a
new doctor, cancel it, create an overlapping one (allowed, because
cancelled appointments are exempt from the conflict check), then set the
first one's status back to `Confirmed`. -/

/-- First creation payload of the trace. -/
def tracePayloadA : Payload :=
  ⟨some "Alice Alpha", some "2025-03-15", some "10:00", some 60,
    some "Dr. Xavier", some "In-person", none⟩

/-- Second creation payload of the trace, overlapping the first. -/
def tracePayloadB : Payload :=
  ⟨some "Bob Beta", some "2025-03-15", some "10:30", some 60,
    some "Dr. Xavier", some "In-person", none⟩

/-- Hex-suffix draws for the first creation. -/
def traceSupplyA : Nat → String := fun _ => "00000001"

/-- Hex-suffix draws for the second creation. -/
def traceSupplyB : Nat → String := fun _ => "00000002"

/-- The appointment created from `tracePayloadA`, with a later status. -/
def traceApptA (status : String) : Appointment :=
  ⟨"apt_00000001", "Alice Alpha", "2025-03-15", "10:00", 60,
    "Dr. Xavier", status, "In-person"⟩

/-- The appointment created from `tracePayloadB`. -/
def traceApptB : Appointment :=
  ⟨"apt_00000002", "Bob Beta", "2025-03-15", "10:30", 60,
    "Dr. Xavier", "Scheduled", "In-person"⟩

/-- State after the first creation. -/
def traceState1 : AppointmentService :=
  ⟨initial_mock_data ++ [traceApptA "Scheduled"]⟩

/-- State after cancelling the first appointment. -/
def traceState2 : AppointmentService :=
  ⟨initial_mock_data ++ [traceApptA "Cancelled"]⟩

/-- State after the second (overlapping) creation. -/
def traceState3 : AppointmentService :=
  ⟨initial_mock_data ++ [traceApptA "Cancelled", traceApptB]⟩

/-- State after un-cancelling the first appointment: double-booked. -/
def traceState4 : AppointmentService :=
  ⟨initial_mock_data ++ [traceApptA "Confirmed", traceApptB]⟩

/-! ## Helper lemmas -/

theorem strTruthy_none : strTruthy none = false := rfl

theorem strTruthy_some_iff {x : String} : strTruthy (some x) = true ↔ x ≠ "" := by
  show (!x.isEmpty) = true ↔ x ≠ ""
  rw [Bool.not_eq_true', Bool.eq_false_iff]
  exact not_congr (String.isEmpty_iff x)

/-- Membership in one filtering stage of `get_appointments`. -/
theorem mem_filter_stage (l : List Appointment) (g : Appointment → String)
    (o : Option String) (a : Appointment) :
    (a ∈ if strTruthy o then l.filter (fun apt => g apt == o.getD "") else l) ↔
      (a ∈ l ∧ ∀ x, o = some x → x ≠ "" → g a = x) := by
  rcases o with _ | x
  · simp [strTruthy_none]
  · by_cases hx : x = ""
    · subst hx
      rw [if_neg (by decide)]
      refine ⟨fun h => ⟨h, fun y hy hne => ?_⟩, fun h => h.1⟩
      cases hy
      exact absurd rfl hne
    · rw [if_pos (strTruthy_some_iff.mpr hx)]
      simp only [List.mem_filter, Option.getD_some, beq_iff_eq, Option.some_inj]
      constructor
      · rintro ⟨hmem, heq⟩
        exact ⟨hmem, fun y hy _ => hy ▸ heq⟩
      · rintro ⟨hmem, hall⟩
        exact ⟨hmem, hall x rfl hx⟩

/-- Claim C4 — Filter correctness: an appointment is listed by
`get_appointments F` iff it is stored and matches every present, non-empty
filter field by exact string equality; absent or empty fields select all. -/
theorem get_appointments_mem_iff (s : AppointmentService) (f : Option Filters)
    (a : Appointment) :
    a ∈ get_appointments s f ↔
      a ∈ s.appointments ∧
      (∀ x, f.bind Filters.date = some x → x ≠ "" → a.date = x) ∧
      (∀ x, f.bind Filters.status = some x → x ≠ "" → a.status = x) ∧
      (∀ x, f.bind Filters.doctor_name = some x → x ≠ "" → a.doctor_name = x) := by
  cases f with
  | none => simp [get_appointments]
  | some flt =>
    obtain ⟨fd, fs, fdn⟩ := flt
    show (a ∈ if strTruthy fdn then _ else _) ↔ _
    rw [mem_filter_stage _ (fun apt => apt.doctor_name) fdn a,
      mem_filter_stage _ (fun apt => apt.status) fs a,
      mem_filter_stage _ (fun apt => apt.date) fd a]
    simp only [Option.some_bind]
    tauto

/-- A successful `find?` splits its list at the first hit. -/
theorem find_some_split {α : Type} {p : α → Bool} {l : List α} {a : α}
    (h : l.find? p = some a) :
    p a = true ∧ ∃ l₁ l₂, l = l₁ ++ a :: l₂ ∧ ∀ x ∈ l₁, p x = false := by
  induction l with
  | nil => simp at h
  | cons b t ih =>
    by_cases hb : p b = true
    · rw [List.find?_cons_of_pos _ hb] at h
      injection h with h
      subst h
      exact ⟨hb, [], t, rfl, by simp⟩
    · rw [List.find?_cons_of_neg _ hb] at h
      obtain ⟨hp, l₁, l₂, rfl, hmiss⟩ := ih h
      refine ⟨hp, b :: l₁, l₂, rfl, ?_⟩
      intro x hx
      rcases List.mem_cons.mp hx with rfl | hx
      · exact Bool.eq_false_iff.mpr hb
      · exact hmiss x hx

/-- Claim C5 — Delete semantics: deleting an absent id returns `false` and
leaves the store untouched; deleting a present id (in a store with
pairwise-distinct ids, the store invariant) removes exactly that one
record, returns `true`, shrinks the count by exactly one, and a repeated
delete of the same id returns `false`. -/
theorem delete_appointment_spec (s : AppointmentService) (appointment_id : String) :
    (get_appointment_by_id s appointment_id = none →
      delete_appointment s appointment_id = (false, s)) ∧
    (∀ apt, (s.appointments.map Appointment.id).Nodup →
      get_appointment_by_id s appointment_id = some apt →
      ∃ l₁ l₂, s.appointments = l₁ ++ apt :: l₂ ∧
        delete_appointment s appointment_id = (true, ⟨l₁ ++ l₂⟩) ∧
        (delete_appointment s appointment_id).2.appointments.length + 1 =
          s.appointments.length ∧
        (delete_appointment (delete_appointment s appointment_id).2 appointment_id).1 =
          false) := by
  constructor
  · intro h
    unfold delete_appointment
    rw [h]
  · intro apt hnodup hfind
    obtain ⟨hpa, l₁, l₂, hdecomp, hmiss⟩ := find_some_split hfind
    have hid : apt.id = appointment_id := by simpa using hpa
    have hmiss₁ : ∀ x ∈ l₁, x.id ≠ appointment_id := by
      intro x hx
      have := hmiss x hx
      simpa using this
    have hmiss₂ : ∀ x ∈ l₂, x.id ≠ appointment_id := by
      rw [hdecomp, List.map_append, List.map_cons] at hnodup
      have hnd2 := hnodup.of_append_right
      have hnotmem := (List.nodup_cons.mp hnd2).1
      intro x hx heq
      have hxa : x.id = apt.id := heq.trans hid.symm
      exact hnotmem (hxa ▸ List.mem_map_of_mem Appointment.id hx)
    have hfilter : s.appointments.filter (fun x => !(x.id == appointment_id)) = l₁ ++ l₂ := by
      rw [hdecomp, List.filter_append, List.filter_cons]
      have : (apt.id == appointment_id) = true := by simpa using hid
      rw [if_neg (by simp [this])]
      rw [List.filter_eq_self.mpr (by intro x hx; simpa using hmiss₁ x hx),
        List.filter_eq_self.mpr (by intro x hx; simpa using hmiss₂ x hx)]
    have hdel : delete_appointment s appointment_id = (true, ⟨l₁ ++ l₂⟩) := by
      unfold delete_appointment
      rw [hfind]
      simp [hfilter]
      rw [hdecomp]
      simp
      omega
    have hlen' : (delete_appointment s appointment_id).2.appointments.length + 1 =
        s.appointments.length := by
      rw [hdel, hdecomp]
      simp [Nat.add_assoc, Nat.add_comm]
    have hrepeat : (delete_appointment (delete_appointment s appointment_id).2
        appointment_id).1 = false := by
      rw [hdel]
      have hnone : get_appointment_by_id ⟨l₁ ++ l₂⟩ appointment_id = none := by
        unfold get_appointment_by_id
        rw [List.find?_eq_none]
        intro x hx
        rcases List.mem_append.mp hx with hx | hx
        · simpa using hmiss₁ x hx
        · simpa using hmiss₂ x hx
      unfold delete_appointment
      rw [hnone]
    exact ⟨l₁, l₂, hdecomp, hdel, hlen', hrepeat⟩

/-- Witness for C5: deleting an id absent from the seeded store, and
deleting `apt_004` from the seeded store. -/
theorem delete_appointment_spec_witness :
    delete_appointment initial_service "apt_999" = (false, initial_service) ∧
    ∃ l₁ l₂, initial_service.appointments =
        l₁ ++ (⟨"apt_004", "Lisa Anderson", "2024-12-26", "11:15", 30,
          "Dr. James Rodriguez", "Confirmed", "Phone"⟩ : Appointment) :: l₂ ∧
      delete_appointment initial_service "apt_004" = (true, ⟨l₁ ++ l₂⟩) ∧
      (delete_appointment initial_service "apt_004").2.appointments.length + 1 =
        initial_service.appointments.length ∧
      (delete_appointment (delete_appointment initial_service "apt_004").2 "apt_004").1 =
        false :=
  ⟨(delete_appointment_spec initial_service "apt_999").1 (by decide),
    (delete_appointment_spec initial_service "apt_004").2
      ⟨"apt_004", "Lisa Anderson", "2024-12-26", "11:15", 30,
        "Dr. James Rodriguez", "Confirmed", "Phone"⟩ (by decide) (by decide)⟩

/-- Searching with `find?` over a list whose prefix misses the predicate finds the first hit. -/
theorem find_append_first {α : Type} {p : α → Bool} (l₁ l₂ : List α) (a : α)
    (hmiss : ∀ x ∈ l₁, p x = false) (hhit : p a = true) :
    (l₁ ++ a :: l₂).find? p = some a := by
  induction l₁ with
  | nil => simp [List.find?_cons_of_pos _ hhit]
  | cons b t ih =>
    have hb := hmiss b (by simp)
    rw [List.cons_append, List.find?_cons_of_neg _ (by simp [hb])]
    exact ih (fun x hx => hmiss x (by simp [hx]))

/-- The replacement loop rewrites exactly the first appointment whose id
matches, in place. -/
theorem update_status_loop_append (appointment_id new_status : String)
    (l₁ l₂ : List Appointment) (apt : Appointment)
    (hmiss : ∀ x ∈ l₁, x.id ≠ appointment_id) (hhit : apt.id = appointment_id) :
    update_status_loop appointment_id new_status (l₁ ++ apt :: l₂) =
      some (with_status apt new_status, l₁ ++ with_status apt new_status :: l₂) := by
  induction l₁ with
  | nil =>
    simp only [List.nil_append]
    unfold update_status_loop
    rw [if_pos (by simpa using hhit)]
  | cons b t ih =>
    have hb : b.id ≠ appointment_id := hmiss b (by simp)
    simp only [List.cons_append]
    unfold update_status_loop
    rw [if_neg (by simpa using hb), ih (fun x hx => hmiss x (List.mem_cons_of_mem b hx))]

/-- Claim C6 — Status-update frame: updating the status of the stored
appointment with the given id (a valid status, first occurrence at the
decomposition point) replaces exactly that record by a copy whose only
changed field is the status, keeps its position, leaves every other
appointment untouched, and returns the updated record. -/
theorem update_appointment_status_frame (s : AppointmentService)
    (appointment_id new_status : String) (apt : Appointment)
    (l₁ l₂ : List Appointment)
    (hvalid : validate_status_value new_status = true)
    (hdecomp : s.appointments = l₁ ++ apt :: l₂)
    (hmiss : ∀ x ∈ l₁, x.id ≠ appointment_id)
    (hhit : apt.id = appointment_id) :
    update_appointment_status s appointment_id new_status =
      (.ok (with_status apt new_status),
        ⟨l₁ ++ with_status apt new_status :: l₂⟩) := by
  have hfind : get_appointment_by_id s appointment_id = some apt := by
    unfold get_appointment_by_id
    rw [hdecomp]
    exact find_append_first _ _ _ (fun x hx => by simpa using hmiss x hx)
      (by simpa using hhit)
  unfold update_appointment_status
  rw [if_neg (by simp [hvalid]), hfind]
  have hloop := update_status_loop_append appointment_id new_status l₁ l₂ apt hmiss hhit
  rw [show update_status_loop appointment_id new_status s.appointments =
    some (with_status apt new_status, l₁ ++ with_status apt new_status :: l₂) from
      hdecomp ▸ hloop]

/-- Witness for C6: set the status of `apt_002` (position 1 in the seeded
store) to `Confirmed`. -/
theorem update_appointment_status_frame_witness :
    update_appointment_status initial_service "apt_002" "Confirmed" =
      (.ok (with_status ⟨"apt_002", "Emily Davis", "2024-12-27", "10:30", 45,
          "Dr. Michael Chen", "Scheduled", "Virtual"⟩ "Confirmed"),
        ⟨initial_mock_data.take 1 ++
          with_status ⟨"apt_002", "Emily Davis", "2024-12-27", "10:30", 45,
            "Dr. Michael Chen", "Scheduled", "Virtual"⟩ "Confirmed" ::
          initial_mock_data.drop 2⟩) :=
  update_appointment_status_frame initial_service "apt_002" "Confirmed"
    ⟨"apt_002", "Emily Davis", "2024-12-27", "10:30", 45,
      "Dr. Michael Chen", "Scheduled", "Virtual"⟩
    (initial_mock_data.take 1) (initial_mock_data.drop 2)
    (by decide) (by decide) (by decide) (by decide)

/-- Any error outcome of the creation body leaves the store unchanged. -/
theorem create_with_id_err_snd {s : AppointmentService} {new_id : String}
    {payload : Payload} {code msg : String}
    (h : (create_with_id s new_id payload).1 = .err code msg) :
    (create_with_id s new_id payload).2 = s := by
  simp only [create_with_id] at h ⊢
  split_ifs at h ⊢ <;> simp_all

/-- Claim C3 — Error handling: when `create_appointment` answers with a
`VALIDATION_ERROR` or `CONFLICT_ERROR` envelope, the appointments
collection is exactly what it was before the call. -/
theorem create_appointment_error_no_mutation (s : AppointmentService)
    (supply : Nat → String)
    (hfresh : ∃ n, id_is_free s (candidate_id supply n) = true) (payload : Payload)
    (herr : ∃ msg,
      (create_appointment s supply hfresh payload).1 = .err "VALIDATION_ERROR" msg ∨
      (create_appointment s supply hfresh payload).1 = .err "CONFLICT_ERROR" msg) :
    (create_appointment s supply hfresh payload).2 = s := by
  obtain ⟨msg, hm | hm⟩ := herr <;> exact create_with_id_err_snd hm

/-- Freshness of the trace's first candidate id in the seeded store. -/
theorem fresh_a : ∃ n, id_is_free initial_service (candidate_id traceSupplyA n) = true :=
  ⟨0, by decide⟩

/-- Witness for C3: an empty payload is rejected without mutating the
seeded store. -/
theorem create_appointment_error_no_mutation_witness :
    (create_appointment initial_service traceSupplyA fresh_a
      ⟨none, none, none, none, none, none, none⟩).2 = initial_service :=
  create_appointment_error_no_mutation initial_service traceSupplyA fresh_a
    ⟨none, none, none, none, none, none, none⟩
    ⟨"Invalid appointment data", Or.inl (by decide)⟩

/-- Members of a conflict list are never cancelled. -/
theorem status_of_mem_conflicts {s : AppointmentService} {dn dt tm : String}
    {dur : Int} {ex : Option String} {a : Appointment}
    (h : a ∈ check_time_conflicts s dn dt tm dur ex) : a.status ≠ "Cancelled" := by
  unfold check_time_conflicts at h
  rcases hd : parseDate dt with _ | d <;> rcases ht : parseTime tm with _ | t <;>
    rw [hd, ht] at h <;> simp at h
  obtain ⟨-, hkeep⟩ := h
  unfold conflictKeep at hkeep
  intro hst
  rw [hst] at hkeep
  simp at hkeep

/-- Claim C7 — Cancelled-exempt: a cancelled appointment never appears in a
conflict list, and a `CONFLICT_ERROR` from `create_appointment` is always
caused by at least one non-cancelled conflicting appointment. -/
theorem cancelled_exempt :
    (∀ (s : AppointmentService) (dn dt tm : String) (dur : Int)
      (ex : Option String) (apt : Appointment), apt.status = "Cancelled" →
        apt ∉ check_time_conflicts s dn dt tm dur ex) ∧
    (∀ (s : AppointmentService) (supply : Nat → String)
      (hfresh : ∃ n, id_is_free s (candidate_id supply n) = true)
      (payload : Payload) (msg : String),
      (create_appointment s supply hfresh payload).1 = .err "CONFLICT_ERROR" msg →
      ∃ a, a ∈ check_time_conflicts s (pyStrip (payload.doctor_name.getD ""))
          (payload.date.getD "") (payload.time.getD "") (payload.duration.getD 0) none ∧
        a.status ≠ "Cancelled") := by
  constructor
  · intro s dn dt tm dur ex apt hst hmem
    exact absurd hst (status_of_mem_conflicts hmem)
  · intro s supply hfresh payload msg h
    have h' : (create_with_id s (candidate_id supply (Nat.find hfresh)) payload).1 =
        .err "CONFLICT_ERROR" msg := h
    simp only [create_with_id] at h'
    split_ifs at h' with h1 h2 h3
    · simp at h'
    · simp at h'
    · have hne : check_time_conflicts s (pyStrip (payload.doctor_name.getD ""))
          (payload.date.getD "") (payload.time.getD "") (payload.duration.getD 0)
          none ≠ [] := by
        intro hnil
        exact h3 (by rw [hnil]; rfl)
      obtain ⟨a, ha⟩ := List.exists_mem_of_ne_nil _ hne
      exact ⟨a, ha, status_of_mem_conflicts ha⟩

/-- Witness for C7: the cancelled `apt_006` is not in the conflict list for
its own slot, and a conflicting creation on `2024-12-27` is caused by the
non-cancelled `apt_001`. -/
theorem cancelled_exempt_witness :
    (⟨"apt_006", "Jennifer Taylor", "2024-12-26", "15:45", 30, "Dr. Sarah Johnson",
        "Cancelled", "In-person"⟩ : Appointment) ∉
      check_time_conflicts initial_service "Dr. Sarah Johnson" "2024-12-26" "15:45" 30 none ∧
    ∃ a, a ∈ check_time_conflicts initial_service "Dr. Sarah Johnson" "2024-12-27"
        "09:15" 30 none ∧ a.status ≠ "Cancelled" :=
  ⟨cancelled_exempt.1 initial_service "Dr. Sarah Johnson" "2024-12-26" "15:45" 30 none
      _ (by decide),
    cancelled_exempt.2 initial_service traceSupplyA fresh_a
      ⟨some "Test Patient", some "2024-12-27", some "09:15", some 30,
        some "Dr. Sarah Johnson", some "In-person", none⟩
      ("Time conflict detected for Dr. Dr. Sarah Johnson on 2024-12-27") (by decide)⟩

/-- The validator treats a present-but-empty status exactly like an absent
one (the status clause is guarded by truthiness). -/
theorem validate_ignores_empty_status {p : Payload} (h : p.status = some "") :
    validate_appointment_data p = validate_appointment_data { p with status := none } := by
  obtain ⟨pn, pd, pt, du, dn, mo, st⟩ := p
  cases h
  rfl

/-- Claim C10 — A payload carrying `status: ""` passes
`validate_appointment_data` (the empty status is skipped), yet
`create_appointment` does not default it to `Scheduled`: the status
re-check rejects the empty string with a `VALIDATION_ERROR` and the store
is left unchanged. -/
theorem empty_status_rejected (s : AppointmentService) (supply : Nat → String)
    (hfresh : ∃ n, id_is_free s (candidate_id supply n) = true) (p : Payload)
    (hstatus : p.status = some "")
    (hrest : (validate_appointment_data { p with status := none }).1 = true) :
    (validate_appointment_data p).1 = true ∧
    create_appointment s supply hfresh p =
      (.err "VALIDATION_ERROR" ("Invalid status value: " ++ ""), s) := by
  have hval : (validate_appointment_data p).1 = true := by
    rw [validate_ignores_empty_status hstatus]
    exact hrest
  refine ⟨hval, ?_⟩
  show create_with_id s (candidate_id supply (Nat.find hfresh)) p = _
  simp only [create_with_id]
  rw [if_neg (by simp [hval]), hstatus]
  rw [if_pos (by decide)]
  rfl

/-- Witness for C10: a concrete otherwise-valid payload with `status: ""`. -/
theorem empty_status_rejected_witness :
    (validate_appointment_data ⟨some "Walter Crane", some "2025-06-01", some "09:00",
      some 30, some "Dr. Gregory House", some "Phone", some ""⟩).1 = true ∧
    create_appointment initial_service traceSupplyA fresh_a
      ⟨some "Walter Crane", some "2025-06-01", some "09:00",
        some 30, some "Dr. Gregory House", some "Phone", some ""⟩ =
      (.err "VALIDATION_ERROR" ("Invalid status value: " ++ ""), initial_service) :=
  empty_status_rejected initial_service traceSupplyA fresh_a
    ⟨some "Walter Crane", some "2025-06-01", some "09:00",
      some 30, some "Dr. Gregory House", some "Phone", some ""⟩
    rfl (by decide)

/-- A payload that passes validation has a parsable date and time. -/
theorem validate_ok_parses {p : Payload} (h : (validate_appointment_data p).1 = true) :
    (∃ v, parseDate (p.date.getD "") = some v) ∧
    (∃ t, parseTime (p.time.getD "") = some t) := by
  unfold validate_appointment_data at h
  split_ifs at h with hreq
  replace h : formatErrors p = [] := by
    cases hfe : formatErrors p with
    | nil => rfl
    | cons a t => rw [hfe] at h; simp at h
  unfold formatErrors at h
  simp only [List.append_eq_nil] at h
  obtain ⟨⟨⟨⟨⟨⟨-, h2⟩, h3⟩, -⟩, -⟩, -⟩, -⟩ := h
  constructor
  · by_cases hd : validate_date_format (p.date.getD "") = true
    · exact Option.isSome_iff_exists.mp hd
    · rw [if_neg hd] at h2
      simp at h2
  · by_cases htm : validate_time_format (p.time.getD "") = true
    · exact Option.isSome_iff_exists.mp htm
    · rw [if_neg htm] at h3
      simp at h3

/-- Claim C2 — Conflict detection: given a valid creation payload (parsed
start `S2`, duration as given), a stored non-cancelled appointment for the
same doctor and date with parsed start `S1` is in the computed conflict
list iff `S1 < S2 + L2` and `S2 < S1 + L1` (so back-to-back appointments
do not conflict), and `create_appointment` rejects with `CONFLICT_ERROR`
iff that conflict list is non-empty. -/
theorem conflict_detection_iff (s : AppointmentService) (supply : Nat → String)
    (hfresh : ∃ n, id_is_free s (candidate_id supply n) = true)
    (payload : Payload) (S2 : Nat)
    (hvalid : (validate_appointment_data payload).1 = true)
    (ht : parseTime (payload.time.getD "") = some S2) :
    (∀ X ∈ s.appointments, X.status ≠ "Cancelled" →
      X.doctor_name = pyStrip (payload.doctor_name.getD "") →
      X.date = payload.date.getD "" →
      ∀ S1, parseTime X.time = some S1 →
        (X ∈ check_time_conflicts s (pyStrip (payload.doctor_name.getD ""))
            (payload.date.getD "") (payload.time.getD "")
            (payload.duration.getD 0) none ↔
          ((S1 : Int) < (S2 : Int) + payload.duration.getD 0 ∧
            (S2 : Int) < (S1 : Int) + X.duration))) ∧
    (validate_status_value (payload.status.getD "Scheduled") = true →
      ((∃ msg, (create_appointment s supply hfresh payload).1 =
          .err "CONFLICT_ERROR" msg) ↔
        check_time_conflicts s (pyStrip (payload.doctor_name.getD ""))
          (payload.date.getD "") (payload.time.getD "")
          (payload.duration.getD 0) none ≠ [])) := by
  obtain ⟨⟨v, hd⟩, -⟩ := validate_ok_parses hvalid
  constructor
  · intro X hX hstat hdoc hdate S1 hS1
    have hkeep : conflictKeep (pyStrip (payload.doctor_name.getD ""))
        (payload.date.getD "") S2 (payload.duration.getD 0) none X = true ↔
        ((S1 : Int) < (S2 : Int) + payload.duration.getD 0 ∧
          (S2 : Int) < (S1 : Int) + X.duration) := by
      unfold conflictKeep
      rw [hS1]
      simp [strTruthy_none, hdoc, hdate, bne_iff_ne, hstat]
    unfold check_time_conflicts
    rw [hd, ht]
    simp only [List.mem_filter]
    rw [hkeep]
    simp [hX]
  · intro hstatus_ok
    constructor
    · rintro ⟨msg, hm⟩ hnil
      have h' : (create_with_id s (candidate_id supply (Nat.find hfresh)) payload).1 =
          .err "CONFLICT_ERROR" msg := hm
      simp only [create_with_id] at h'
      rw [if_neg (by simp [hvalid]), if_neg (by simp [hstatus_ok]), hnil] at h'
      simp at h'
    · intro hne
      refine ⟨"Time conflict detected for Dr. " ++ payload.doctor_name.getD "" ++
        " on " ++ payload.date.getD "", ?_⟩
      show (create_with_id s (candidate_id supply (Nat.find hfresh)) payload).1 = _
      simp only [create_with_id]
      rw [if_neg (by simp [hvalid]), if_neg (by simp [hstatus_ok]),
        if_neg (fun hemp => hne (List.isEmpty_iff.mp hemp))]

/-- Witness for C2: `apt_001` (09:00, 30 min) against a valid request for
09:15, 30 min with the same doctor and date, which conflicts. -/
theorem conflict_detection_iff_witness :
    ((⟨"apt_001", "John Smith", "2024-12-27", "09:00", 30, "Dr. Sarah Johnson",
        "Confirmed", "In-person"⟩ : Appointment) ∈
      check_time_conflicts initial_service "Dr. Sarah Johnson" "2024-12-27" "09:15" 30
        none ↔
      ((540 : Int) < (555 : Int) + 30 ∧ (555 : Int) < (540 : Int) + 30)) ∧
    ((∃ msg, (create_appointment initial_service traceSupplyA fresh_a
        ⟨some "Test Patient", some "2024-12-27", some "09:15", some 30,
          some "Dr. Sarah Johnson", some "In-person", none⟩).1 =
        .err "CONFLICT_ERROR" msg) ↔
      check_time_conflicts initial_service "Dr. Sarah Johnson" "2024-12-27" "09:15" 30
        none ≠ []) :=
  ⟨(conflict_detection_iff initial_service traceSupplyA fresh_a
      ⟨some "Test Patient", some "2024-12-27", some "09:15", some 30,
        some "Dr. Sarah Johnson", some "In-person", none⟩ 555 (by decide) (by decide)).1
      ⟨"apt_001", "John Smith", "2024-12-27", "09:00", 30, "Dr. Sarah Johnson",
        "Confirmed", "In-person"⟩ (by decide) (by decide) (by decide) (by decide)
      540 (by decide),
    (conflict_detection_iff initial_service traceSupplyA fresh_a
      ⟨some "Test Patient", some "2024-12-27", some "09:15", some 30,
        some "Dr. Sarah Johnson", some "In-person", none⟩ 555 (by decide) (by decide)).2
      (by decide)⟩

/-- Claim C8 — Round-trip: a successful creation returns an appointment whose
fields are the payload's with patient and doctor names stripped, whose
status is the payload's (defaulting to `Scheduled` when unspecified),
whose id carries the fixed `apt_` prefix and differs from every stored id,
and which `get_appointment_by_id` retrieves identically from the new
store. -/
theorem create_appointment_round_trip (s : AppointmentService) (supply : Nat → String)
    (hfresh : ∃ n, id_is_free s (candidate_id supply n) = true)
    (payload : Payload) (a : Appointment) (s' : AppointmentService)
    (h : create_appointment s supply hfresh payload = (.ok a, s')) :
    a.patient_name = pyStrip (payload.patient_name.getD "") ∧
    a.doctor_name = pyStrip (payload.doctor_name.getD "") ∧
    a.date = payload.date.getD "" ∧
    a.time = payload.time.getD "" ∧
    a.duration = payload.duration.getD 0 ∧
    a.mode = payload.mode.getD "" ∧
    a.status = payload.status.getD "Scheduled" ∧
    (∃ suffix, a.id = "apt_" ++ suffix) ∧
    (∀ b ∈ s.appointments, b.id ≠ a.id) ∧
    get_appointment_by_id s' a.id = some a := by
  have hfree : id_is_free s (candidate_id supply (Nat.find hfresh)) = true :=
    Nat.find_spec hfresh
  have h' : create_with_id s (candidate_id supply (Nat.find hfresh)) payload =
      (.ok a, s') := h
  simp only [create_with_id] at h'
  split_ifs at h' with h1 h2 h3
  · simp at h'
  · simp at h'
  · obtain ⟨hres, hstore⟩ := Prod.ext_iff.mp h'
    injection hres with hnew
    subst hnew
    subst hstore
    have hmiss : ∀ b ∈ s.appointments,
        (b.id == candidate_id supply (Nat.find hfresh)) = false := by
      have hnone : get_appointment_by_id s (candidate_id supply (Nat.find hfresh)) =
          none := Option.isNone_iff_eq_none.mp hfree
      unfold get_appointment_by_id at hnone
      intro b hb
      exact Bool.eq_false_iff.mpr (List.find?_eq_none.mp hnone b hb)
    refine ⟨rfl, rfl, rfl, rfl, rfl, rfl, rfl,
      ⟨supply (Nat.find hfresh), rfl⟩, ?_, ?_⟩
    · intro b hb
      simpa using hmiss b hb
    · unfold get_appointment_by_id
      exact find_append_first s.appointments [] _ hmiss (by simp)
  · simp at h'

/-- Witness for C8: creating a padded-name appointment on the seeded store
and reading it back by its generated id. -/
theorem create_appointment_round_trip_witness :
    ("Alice Alpha" : String) = pyStrip ((some " Alice Alpha ").getD "") ∧
    ("Dr. Xavier" : String) = pyStrip ((some " Dr. Xavier ").getD "") ∧
    ("2025-03-15" : String) = (some "2025-03-15").getD "" ∧
    ("10:00" : String) = (some "10:00").getD "" ∧
    (60 : Int) = (some (60 : Int)).getD 0 ∧
    ("In-person" : String) = (some "In-person").getD "" ∧
    ("Scheduled" : String) = (none : Option String).getD "Scheduled" ∧
    (∃ suffix, ("apt_00000001" : String) = "apt_" ++ suffix) ∧
    (∀ b ∈ initial_service.appointments, b.id ≠ "apt_00000001") ∧
    get_appointment_by_id
      ⟨initial_mock_data ++ [⟨"apt_00000001", "Alice Alpha", "2025-03-15", "10:00",
        60, "Dr. Xavier", "Scheduled", "In-person"⟩]⟩ "apt_00000001" =
      some ⟨"apt_00000001", "Alice Alpha", "2025-03-15", "10:00", 60, "Dr. Xavier",
        "Scheduled", "In-person"⟩ :=
  create_appointment_round_trip initial_service traceSupplyA fresh_a
    ⟨some " Alice Alpha ", some "2025-03-15", some "10:00", some 60,
      some " Dr. Xavier ", some "In-person", none⟩
    ⟨"apt_00000001", "Alice Alpha", "2025-03-15", "10:00", 60, "Dr. Xavier",
      "Scheduled", "In-person"⟩
    ⟨initial_mock_data ++ [⟨"apt_00000001", "Alice Alpha", "2025-03-15", "10:00",
      60, "Dr. Xavier", "Scheduled", "In-person"⟩]⟩
    (by
      have h0 : Nat.find fresh_a = 0 := (Nat.find_eq_zero fresh_a).mpr (by decide)
      show create_with_id initial_service
        (candidate_id traceSupplyA (Nat.find fresh_a)) _ = _
      rw [h0]
      decide)

/-- Splitting with `fields` always yields at least one segment. -/
theorem fields_ne_nil (sep : Char) (l : List Char) : fields sep l ≠ [] := by
  induction l with
  | nil => simp [fields]
  | cons c cs ih =>
    unfold fields
    cases h : fields sep cs with
    | nil => simp
    | cons f rest => by_cases hc : c = sep <;> simp [hc]

/-- Unfolding equation for `fields` on a cons cell, once the tail's split is
known. -/
theorem fields_cons_eq (sep c : Char) (cs f : List Char) (rest : List (List Char))
    (h : fields sep cs = f :: rest) :
    fields sep (c :: cs) =
      if c = sep then [] :: f :: rest else (c :: f) :: rest := by
  unfold fields
  rw [h]

/-- Unfolding of `joinSep` on a cons with a non-empty tail. -/
theorem joinSep_cons (sep : Char) (x : List Char) {ys : List (List Char)}
    (h : ys ≠ []) : joinSep sep (x :: ys) = x ++ sep :: joinSep sep ys := by
  cases ys with
  | nil => exact absurd rfl h
  | cons y ys' => rfl

/-- Splitting and rejoining is the identity. -/
theorem fields_join (sep : Char) (l : List Char) : joinSep sep (fields sep l) = l := by
  induction l with
  | nil => rfl
  | cons c cs ih =>
    cases h : fields sep cs with
    | nil => exact absurd h (fields_ne_nil sep cs)
    | cons f rest =>
      rw [h] at ih
      rw [fields_cons_eq sep c cs f rest h]
      by_cases hc : c = sep
      · rw [if_pos hc, joinSep_cons sep [] (by simp)]
        simp [hc, ih]
      · rw [if_neg hc]
        cases rest with
        | nil => exact congrArg (c :: ·) ih
        | cons r rs =>
          rw [joinSep_cons sep (c :: f) (by simp), List.cons_append]
          rw [joinSep_cons sep f (by simp)] at ih
          exact congrArg (c :: ·) ih

/-- No segment produced by `fields` contains the separator. -/
theorem fields_mem_nosep (sep : Char) (l : List Char) :
    ∀ part ∈ fields sep l, sep ∉ part := by
  induction l with
  | nil =>
    intro part hp
    simp [fields] at hp
    subst hp
    simp
  | cons c cs ih =>
    intro part hp
    cases h : fields sep cs with
    | nil => exact absurd h (fields_ne_nil sep cs)
    | cons f rest =>
      rw [fields_cons_eq sep c cs f rest h] at hp
      by_cases hc : c = sep
      · rw [if_pos hc] at hp
        rcases List.mem_cons.mp hp with rfl | hp'
        · simp
        · exact ih part (h ▸ hp')
      · rw [if_neg hc] at hp
        rcases List.mem_cons.mp hp with rfl | hp'
        · intro hmem
          rcases List.mem_cons.mp hmem with heq | hmem'
          · exact hc heq.symm
          · exact ih f (h ▸ List.mem_cons_self f rest) hmem'
        · exact ih part (h ▸ List.mem_cons_of_mem f hp')

/-- A separator-free list is a single segment. -/
theorem fields_nosep (sep : Char) (a : List Char) (h : sep ∉ a) :
    fields sep a = [a] := by
  induction a with
  | nil => rfl
  | cons c cs ih =>
    have hc : c ≠ sep := fun hcc => h (hcc ▸ List.mem_cons_self c cs)
    have ht := ih (fun hm => h (List.mem_cons_of_mem c hm))
    rw [fields_cons_eq sep c cs cs [] ht, if_neg hc]

/-- Splitting after a separator-free prefix peels off that prefix. -/
theorem fields_append_sep (sep : Char) (a l : List Char) (h : sep ∉ a) :
    fields sep (a ++ sep :: l) = a :: fields sep l := by
  induction a with
  | nil =>
    simp only [List.nil_append]
    cases hf : fields sep l with
    | nil => exact absurd hf (fields_ne_nil sep l)
    | cons f rest =>
      rw [fields_cons_eq sep sep l f rest hf, if_pos rfl]
  | cons c cs ih =>
    have hc : c ≠ sep := fun hcc => h (hcc ▸ List.mem_cons_self c cs)
    have ht := ih (fun hm => h (List.mem_cons_of_mem c hm))
    simp only [List.cons_append]
    rw [fields_cons_eq sep c (cs ++ sep :: l) cs (fields sep l) ht, if_neg hc]

/-- A list of ASCII digits cannot contain a non-digit character. -/
theorem not_mem_of_allDigits {cs : List Char} (h : allDigits cs = true)
    {c : Char} (hc : c.isDigit = false) : c ∉ cs := by
  intro hm
  have hdig := List.all_eq_true.mp h c hm
  rw [hc] at hdig
  exact Bool.noConfusion hdig

/-- Claim C9, amended: `validate_date_format` accepts a string iff it is
`year-month-day` with exactly four year digits, one *or* two month digits
(value 1..12), one *or* two day digits, denoting a real calendar date
(year at least 1, day within the Gregorian month length); any rejected
date string makes `validate_appointment_data` report the date error. -/
theorem validate_date_format_iff (s : String) :
    (validate_date_format s = true ↔
      ∃ ys ms ds : List Char,
        s.toList = ys ++ '-' :: (ms ++ '-' :: ds) ∧
        allDigits ys = true ∧ ys.length = 4 ∧ 1 ≤ digitsToNat ys ∧
        allDigits ms = true ∧ (ms.length = 1 ∨ ms.length = 2) ∧
        1 ≤ digitsToNat ms ∧ digitsToNat ms ≤ 12 ∧
        allDigits ds = true ∧ (ds.length = 1 ∨ ds.length = 2) ∧
        1 ≤ digitsToNat ds ∧
        digitsToNat ds ≤ daysInMonth (digitsToNat ys) (digitsToNat ms)) ∧
    (validate_date_format s = false → ∀ p : Payload, p.date = some s →
      requiredFieldErrors p = [] →
      "Date must be in YYYY-MM-DD format" ∈ (validate_appointment_data p).2) := by
  refine ⟨⟨?_, ?_⟩, ?_⟩
  · intro h
    unfold validate_date_format parseDate at h
    split at h
    case _ ys ms ds heq =>
      split_ifs at h with hseg hreal
      · have hsplit : s.toList = ys ++ '-' :: (ms ++ '-' :: ds) := by
          have hj := fields_join '-' s.toList
          rw [heq] at hj
          exact hj.symm
        simp only [yearSeg, monthSeg, daySeg, Bool.and_eq_true,
          decide_eq_true_eq, Bool.or_eq_true] at hseg
        obtain ⟨⟨⟨hy, hy4⟩, ⟨⟨⟨hm, hml⟩, hm1⟩, hm12⟩⟩, ⟨⟨⟨hd, hdl⟩, hd1⟩, -⟩⟩ := hseg
        exact ⟨ys, ms, ds, hsplit, hy, hy4, hreal.1, hm, hml, hm1, hm12,
          hd, hdl, hd1, hreal.2⟩
      · simp at h
      · simp at h
    case _ hne =>
      simp at h
  · rintro ⟨ys, ms, ds, hsplit, hy, hy4, hy1, hm, hml, hm1, hm12, hd, hdl,
      hd1, hdle⟩
    have hysep : '-' ∉ ys := not_mem_of_allDigits hy (by decide)
    have hmsep : '-' ∉ ms := not_mem_of_allDigits hm (by decide)
    have hdsep : '-' ∉ ds := not_mem_of_allDigits hd (by decide)
    have hfields : fields '-' s.toList = [ys, ms, ds] := by
      rw [hsplit, fields_append_sep '-' ys _ hysep,
        fields_append_sep '-' ms _ hmsep, fields_nosep '-' ds hdsep]
    have hd31 : digitsToNat ds ≤ 31 :=
      le_trans hdle (by unfold daysInMonth; split_ifs <;> omega)
    have hseg : (yearSeg ys && monthSeg ms && daySeg ds) = true := by
      rcases hml with hml | hml <;> rcases hdl with hdl | hdl <;>
        simp [yearSeg, monthSeg, daySeg, hy, hy4, hm, hd, hml, hdl, hm1,
          hm12, hd1, hd31]
    unfold validate_date_format parseDate
    rw [hfields]
    show (if (yearSeg ys && monthSeg ms && daySeg ds) = true then
      if 1 ≤ digitsToNat ys ∧
          digitsToNat ds ≤ daysInMonth (digitsToNat ys) (digitsToNat ms) then
        some (digitsToNat ys, digitsToNat ms, digitsToNat ds)
      else none
    else none).isSome = true
    rw [if_pos hseg, if_pos ⟨hy1, hdle⟩]
    rfl
  · intro hfalse p hdate hreq
    have hcond : validate_date_format (p.date.getD "") = false := by
      rw [hdate]
      exact hfalse
    unfold validate_appointment_data
    rw [if_neg (by simp [hreq])]
    show _ ∈ formatErrors p
    unfold formatErrors
    rw [if_neg (show ¬(validate_date_format (p.date.getD "") = true) by
      simp [hcond])]
    simp

/-- Counterexample for C9: the code accepts `"2024-1-05"` although its
month is a single digit, which the claim's strict four-two-two shape
rejects. -/
theorem validate_date_format_strict_cex :
    validate_date_format "2024-1-05" = true ∧
    specStrictDateFormat "2024-1-05" = false := by decide

/-- Witness for C9 (amended): applying the characterization to the
accepted `"2024-1-05"` and the rejected `"2024-13-01"`. -/
theorem validate_date_format_iff_witness :
    (∃ ys ms ds : List Char,
      ("2024-1-05" : String).toList = ys ++ '-' :: (ms ++ '-' :: ds) ∧
      allDigits ys = true ∧ ys.length = 4 ∧ 1 ≤ digitsToNat ys ∧
      allDigits ms = true ∧ (ms.length = 1 ∨ ms.length = 2) ∧
      1 ≤ digitsToNat ms ∧ digitsToNat ms ≤ 12 ∧
      allDigits ds = true ∧ (ds.length = 1 ∨ ds.length = 2) ∧
      1 ≤ digitsToNat ds ∧
      digitsToNat ds ≤ daysInMonth (digitsToNat ys) (digitsToNat ms)) ∧
    "Date must be in YYYY-MM-DD format" ∈
      (validate_appointment_data ⟨some "Pat Doe", some "2024-13-01", some "10:00",
        some 30, some "Dr. Doe", some "Phone", none⟩).2 :=
  ⟨(validate_date_format_iff "2024-1-05").1.mp (by decide),
    (validate_date_format_iff "2024-13-01").2 (by decide)
      ⟨some "Pat Doe", some "2024-13-01", some "10:00", some 30, some "Dr. Doe",
        some "Phone", none⟩ rfl (by decide)⟩

/-- Case analysis of the creation body's final state: either unchanged, or
(validation passed and no conflicts) the new appointment is appended. -/
theorem create_with_id_cases (s : AppointmentService) (new_id : String)
    (payload : Payload) :
    (create_with_id s new_id payload).2 = s ∨
    ((validate_appointment_data payload).1 = true ∧
      check_time_conflicts s (pyStrip (payload.doctor_name.getD ""))
        (payload.date.getD "") (payload.time.getD "")
        (payload.duration.getD 0) none = [] ∧
      (create_with_id s new_id payload).2 =
        ⟨s.appointments ++ [⟨new_id, pyStrip (payload.patient_name.getD ""),
          payload.date.getD "", payload.time.getD "", payload.duration.getD 0,
          pyStrip (payload.doctor_name.getD ""), payload.status.getD "Scheduled",
          payload.mode.getD ""⟩]⟩) := by
  simp only [create_with_id]
  split_ifs with h1 h2 h3
  · left
    rfl
  · left
    rfl
  · right
    refine ⟨?_, List.isEmpty_iff.mp h3, rfl⟩
    revert h1
    cases (validate_appointment_data payload).1 <;> simp
  · left
    rfl

/-- An appointment double-booked against the candidate would have been in
the candidate's conflict list. -/
theorem doubleBooked_imp_keep {payload : Payload} {S2 : Nat} {b : Appointment}
    (htime : parseTime (payload.time.getD "") = some S2)
    (hbb : doubleBooked b
      ⟨nid, pyStrip (payload.patient_name.getD ""), payload.date.getD "",
        payload.time.getD "", payload.duration.getD 0,
        pyStrip (payload.doctor_name.getD ""), payload.status.getD "Scheduled",
        payload.mode.getD ""⟩ = true) :
    conflictKeep (pyStrip (payload.doctor_name.getD "")) (payload.date.getD "")
      S2 (payload.duration.getD 0) none b = true := by
  unfold doubleBooked at hbb
  unfold conflictKeep
  simp only [htime] at hbb
  simp only [strTruthy_none, Bool.false_and, Bool.not_false, Bool.true_and,
    Bool.and_eq_true] at hbb ⊢
  obtain ⟨⟨⟨⟨hdoc, hdate⟩, hstat⟩, -⟩, hov⟩ := hbb
  cases hpa : parseTime b.time with
  | none => rw [hpa] at hov; exact Bool.noConfusion hov
  | some sa =>
    rw [hpa] at hov
    exact ⟨⟨⟨hdoc, hdate⟩, hstat⟩, hov⟩

/-- Creation preserves the no-double-booking invariant. -/
theorem noDoubleBooking_create (s : AppointmentService) (supply : Nat → String)
    (hfresh : ∃ n, id_is_free s (candidate_id supply n) = true) (payload : Payload)
    (h : NoDoubleBooking s) :
    NoDoubleBooking (create_appointment s supply hfresh payload).2 := by
  show NoDoubleBooking (create_with_id s (candidate_id supply (Nat.find hfresh)) payload).2
  rcases create_with_id_cases s (candidate_id supply (Nat.find hfresh)) payload with
    heq | ⟨hv, hconf, heq⟩
  · rwa [heq]
  · rw [heq]
    obtain ⟨⟨v, hdate⟩, ⟨S2, htime⟩⟩ := validate_ok_parses hv
    have hkeepall : ∀ b ∈ s.appointments,
        conflictKeep (pyStrip (payload.doctor_name.getD "")) (payload.date.getD "")
          S2 (payload.duration.getD 0) none b = false := by
      have hfe : s.appointments.filter
          (conflictKeep (pyStrip (payload.doctor_name.getD "")) (payload.date.getD "")
            S2 (payload.duration.getD 0) none) = [] := by
        have hck : check_time_conflicts s (pyStrip (payload.doctor_name.getD ""))
            (payload.date.getD "") (payload.time.getD "")
            (payload.duration.getD 0) none =
            s.appointments.filter
              (conflictKeep (pyStrip (payload.doctor_name.getD ""))
                (payload.date.getD "") S2 (payload.duration.getD 0) none) := by
          unfold check_time_conflicts
          rw [hdate, htime]
        rw [← hck]
        exact hconf
      intro b hb
      have := List.filter_eq_nil_iff.mp hfe b hb
      exact Bool.eq_false_iff.mpr this
    unfold NoDoubleBooking
    rw [List.pairwise_append]
    refine ⟨h, List.pairwise_singleton _ _, ?_⟩
    intro b hb c hc
    rw [List.mem_singleton.mp hc]
    by_contra hbb
    have hbb' := Bool.eq_false_or_eq_true (doubleBooked b
      ⟨candidate_id supply (Nat.find hfresh), pyStrip (payload.patient_name.getD ""),
        payload.date.getD "", payload.time.getD "", payload.duration.getD 0,
        pyStrip (payload.doctor_name.getD ""), payload.status.getD "Scheduled",
        payload.mode.getD ""⟩)
    rcases hbb' with ht | hf
    · exact absurd (doubleBooked_imp_keep htime ht) (by simp [hkeepall b hb])
    · exact hbb hf

/-- Deletion preserves the no-double-booking invariant (the remaining
collection is a sublist). -/
theorem noDoubleBooking_delete (s : AppointmentService) (appointment_id : String)
    (h : NoDoubleBooking s) :
    NoDoubleBooking (delete_appointment s appointment_id).2 := by
  cases hfind : get_appointment_by_id s appointment_id with
  | none =>
    simp only [delete_appointment, hfind]
    exact h
  | some apt =>
    simp only [delete_appointment, hfind]
    exact List.Pairwise.sublist (List.filter_sublist _) h

/-- A status change that never un-cancels cannot create a double booking
with a fixed partner (left argument changed). -/
theorem with_status_db_left {a b : Appointment} {st : String}
    (hsafe : a.status = "Cancelled" → st = "Cancelled")
    (hab : doubleBooked a b = false) :
    doubleBooked (with_status a st) b = false := by
  by_contra hne
  have ht : doubleBooked (with_status a st) b = true := by
    cases hdb : doubleBooked (with_status a st) b
    · exact absurd hdb hne
    · rfl
  unfold doubleBooked with_status at ht
  simp only [Bool.and_eq_true] at ht
  obtain ⟨⟨⟨⟨hdoc, hdate⟩, hst⟩, hbst⟩, hov⟩ := ht
  have hastat : (a.status != "Cancelled") = true := by
    rw [bne_iff_ne] at hst ⊢
    intro hc
    exact hst (hsafe hc)
  have hab' : doubleBooked a b = true := by
    unfold doubleBooked
    simp only [Bool.and_eq_true]
    exact ⟨⟨⟨⟨hdoc, hdate⟩, hastat⟩, hbst⟩, hov⟩
  rw [hab'] at hab
  exact Bool.noConfusion hab

/-- A status change that never un-cancels cannot create a double booking
with a fixed partner (right argument changed). -/
theorem with_status_db_right {a b : Appointment} {st : String}
    (hsafe : a.status = "Cancelled" → st = "Cancelled")
    (hab : doubleBooked b a = false) :
    doubleBooked b (with_status a st) = false := by
  by_contra hne
  have ht : doubleBooked b (with_status a st) = true := by
    cases hdb : doubleBooked b (with_status a st)
    · exact absurd hdb hne
    · rfl
  unfold doubleBooked with_status at ht
  simp only [Bool.and_eq_true] at ht
  obtain ⟨⟨⟨⟨hdoc, hdate⟩, hbst⟩, hst⟩, hov⟩ := ht
  have hastat : (a.status != "Cancelled") = true := by
    rw [bne_iff_ne] at hst ⊢
    intro hc
    exact hst (hsafe hc)
  have hab' : doubleBooked b a = true := by
    unfold doubleBooked
    simp only [Bool.and_eq_true]
    exact ⟨⟨⟨⟨hdoc, hdate⟩, hbst⟩, hastat⟩, hov⟩
  rw [hab'] at hab
  exact Bool.noConfusion hab

/-- Replacing the middle element of a pairwise list preserves pairwiseness
when the new element inherits all relations of the old one. -/
theorem pairwise_set_middle {α : Type} {R : α → α → Prop} {l₁ l₂ : List α}
    {a a' : α} (h : (l₁ ++ a :: l₂).Pairwise R)
    (h1 : ∀ b, R a b → R a' b) (h2 : ∀ b, R b a → R b a') :
    (l₁ ++ a' :: l₂).Pairwise R := by
  rw [List.pairwise_append] at h ⊢
  obtain ⟨hp1, hp2, hcross⟩ := h
  rw [List.pairwise_cons] at hp2 ⊢
  obtain ⟨ha2, hp2'⟩ := hp2
  refine ⟨hp1, ⟨fun b hb => h1 b (ha2 b hb), hp2'⟩, ?_⟩
  intro x hx b hb
  rcases List.mem_cons.mp hb with rfl | hb'
  · exact h2 x (hcross x hx a (List.mem_cons_self a l₂))
  · exact hcross x hx b (List.mem_cons_of_mem a hb')

/-- A status update that never moves a cancelled appointment to a
non-cancelled status preserves the no-double-booking invariant. -/
theorem noDoubleBooking_update (s : AppointmentService)
    (appointment_id new_status : String)
    (hsafe : ∀ apt, get_appointment_by_id s appointment_id = some apt →
      apt.status = "Cancelled" → new_status = "Cancelled")
    (h : NoDoubleBooking s) :
    NoDoubleBooking (update_appointment_status s appointment_id new_status).2 := by
  by_cases hv : validate_status_value new_status = false
  · simp only [update_appointment_status, if_pos hv]
    exact h
  · cases hfind : get_appointment_by_id s appointment_id with
    | none =>
      simp only [update_appointment_status, if_neg hv, hfind]
      exact h
    | some apt =>
      have hfind' : s.appointments.find? (fun a => a.id == appointment_id) =
          some apt := hfind
      obtain ⟨hpa, l₁, l₂, hdecomp, hmiss⟩ := find_some_split hfind'
      have hid : apt.id = appointment_id := by simpa using hpa
      have hmiss' : ∀ x ∈ l₁, x.id ≠ appointment_id := fun x hx => by
        simpa using hmiss x hx
      have hloop : update_status_loop appointment_id new_status s.appointments =
          some (with_status apt new_status,
            l₁ ++ with_status apt new_status :: l₂) := by
        rw [hdecomp]
        exact update_status_loop_append _ _ _ _ _ hmiss' hid
      simp only [update_appointment_status, if_neg hv, hfind, hloop]
      have hsafe' : apt.status = "Cancelled" → new_status = "Cancelled" :=
        hsafe apt hfind
      unfold NoDoubleBooking at h ⊢
      rw [hdecomp] at h
      exact pairwise_set_middle h (fun b hb => with_status_db_left hsafe' hb)
        (fun b hb => with_status_db_right hsafe' hb)

/-- Claim C1, amended: Invariant under safe traces: every state reachable
from the seeded store by creations, deletions, and status updates that
never move an appointment's status away from `Cancelled` satisfies the
no-double-booking invariant. -/
theorem no_double_booking_invariant (s : AppointmentService)
    (h : SafeReachable s) : NoDoubleBooking s := by
  unfold SafeReachable at h
  induction h with
  | refl => decide
  | tail hab hbc ih =>
    cases hbc with
    | create supply payload hfresh =>
      exact noDoubleBooking_create _ supply hfresh payload ih
    | update aid st hsafe =>
      exact noDoubleBooking_update _ aid st hsafe ih
    | delete aid =>
      exact noDoubleBooking_delete _ aid ih

/-- Witness for C1 (amended): the seeded store itself is safely reachable
and satisfies the invariant. -/
theorem no_double_booking_invariant_witness : NoDoubleBooking initial_service :=
  no_double_booking_invariant initial_service Relation.ReflTransGen.refl

/-- Counterexample for C1 as stated: the un-cancelling trace (create,
cancel, create overlapping, set back to `Confirmed`) reaches a state with
two overlapping non-cancelled appointments for the same doctor and date. -/
theorem uncancel_reachable_cex :
    Reachable traceState4 ∧ ¬ NoDoubleBooking traceState4 := by
  constructor
  · have e1 : (create_appointment initial_service traceSupplyA fresh_a
        tracePayloadA).2 = traceState1 := by
      show (create_with_id initial_service
        (candidate_id traceSupplyA (Nat.find fresh_a)) tracePayloadA).2 = traceState1
      rw [(Nat.find_eq_zero fresh_a).mpr (by decide)]
      decide
    have s1 : Step initial_service traceState1 := by
      have hs := Step.create initial_service traceSupplyA tracePayloadA fresh_a
      rwa [e1] at hs
    have e2 : (update_appointment_status traceState1 "apt_00000001"
        "Cancelled").2 = traceState2 := by decide
    have s2 : Step traceState1 traceState2 := by
      have hs := Step.update traceState1 "apt_00000001" "Cancelled"
      rwa [e2] at hs
    have hfB : ∃ n, id_is_free traceState2 (candidate_id traceSupplyB n) = true :=
      ⟨0, by decide⟩
    have e3 : (create_appointment traceState2 traceSupplyB hfB
        tracePayloadB).2 = traceState3 := by
      show (create_with_id traceState2
        (candidate_id traceSupplyB (Nat.find hfB)) tracePayloadB).2 = traceState3
      rw [(Nat.find_eq_zero hfB).mpr (by decide)]
      decide
    have s3 : Step traceState2 traceState3 := by
      have hs := Step.create traceState2 traceSupplyB tracePayloadB hfB
      rwa [e3] at hs
    have e4 : (update_appointment_status traceState3 "apt_00000001"
        "Confirmed").2 = traceState4 := by decide
    have s4 : Step traceState3 traceState4 := by
      have hs := Step.update traceState3 "apt_00000001" "Confirmed"
      rwa [e4] at hs
    exact Relation.ReflTransGen.tail (Relation.ReflTransGen.tail
      (Relation.ReflTransGen.tail (Relation.ReflTransGen.single s1) s2) s3) s4
  · decide

end SwasthiQ
